import Mathlib

/-
Verification of scripts/generate_icon.py: a utility that renders a set of
square PNG icons (blue background, centered monospace text) and packages
them into an icns bundle by invoking the iconutil subprocess.

The Python code is shallowly embedded: the external image library (PIL)
and operating system (filesystem, subprocess) are modelled as explicit
environment structures, so every repository function becomes a pure,
executable Lean function of the environment.
-/

set_option autoImplicit false

/-- An RGBA pixel value, one natural number per channel. -/
structure RGBA where
  r : Nat
  g : Nat
  b : Nat
  a : Nat
deriving DecidableEq, Repr

/-- A raster image: mode string, dimensions, and a total pixel map.
Models a PIL Image object. -/
structure Image where
  mode : String
  width : Nat
  height : Nat
  px : Nat → Nat → RGBA

/-- An integer pixel bounding box, as returned by draw.textbbox:
fields are bbox[0], bbox[1], bbox[2], bbox[3] of the Python 4-tuple. -/
structure BBox where
  left : Int
  top : Int
  right : Int
  bottom : Int
deriving DecidableEq, Repr

/-- A rational-coordinate bounding box, for boxes translated by the
float draw origin. -/
structure QBBox where
  left : ℚ
  top : ℚ
  right : ℚ
  bottom : ℚ
deriving DecidableEq, Repr

/-- A loaded font, abstracted by what the repository code observes of it:
the measured bounding box of a text drawn at offset (0,0), which pixels a
drawn text covers, and the color painted on covered pixels (the fill
color possibly blended by antialiasing). -/
structure Font where
  textbbox : String → BBox
  cov : String → ℚ × ℚ → Nat → Nat → Bool
  glyphColor : String → (Nat × Nat × Nat) → ℚ × ℚ → Nat → Nat → RGBA

/-- Python exception classes relevant to the script. In Python 3, IOError
is an alias of OSError; both constructors are kept so the except clause of
the source can be modelled verbatim. -/
inductive PyExc where
  | osError
  | ioError
  | attributeError
  | valueError
  | other (nm : String)
deriving DecidableEq, Repr

/-- Whether an exception is caught by the clause except (OSError, IOError)
on line 57 of generate_icon.py. -/
def isCaughtOSError : PyExc → Bool
  | PyExc.osError => true
  | PyExc.ioError => true
  | _ => false

/-- Outcome of a Python expression: a value, or a raised exception. -/
inductive PyResult (α : Type) where
  | ok (a : α)
  | raised (e : PyExc)

/-- True when the result is a value and no exception was raised. -/
def PyResult.isOk {α : Type} : PyResult α → Bool
  | PyResult.ok _ => true
  | PyResult.raised _ => false

/-- The image-library environment: ImageFont.truetype (taking the font
path argument, possibly None, and the requested point size) and
ImageFont.load_default. -/
structure PILEnv where
  truetype : Option String → Nat → PyResult Font
  load_default : Font

/-- Candidate font path, line 36 of generate_icon.py. -/
def sfMonoPath : String := r"/System/Library/Fonts/SFMono-Bold.otf"

/-- Candidate font path, line 37 of generate_icon.py. -/
def menloPath : String := r"/System/Library/Fonts/Menlo.ttc"

/-- Candidate font path, line 38 of generate_icon.py. -/
def monacoPath : String := r"/System/Library/Fonts/Monaco.dfont"

/-- Candidate font path, line 39 of generate_icon.py. -/
def courierNewPath : String := r"/Library/Fonts/Courier New Bold.ttf"

/-- Candidate font path, line 40 of generate_icon.py. -/
def courierPath : String := r"/System/Library/Fonts/Courier.dfont"

/-- The ordered candidate list of find_monospace_font, lines 35 to 41. -/
def candidates : List String :=
  [sfMonoPath, menloPath, monacoPath, courierNewPath, courierPath]

/-- The loop of find_monospace_font, lines 42 to 45: return the first
path for which os.path.exists holds, else None. The filesystem is the
boolean predicate fsExists. -/
def findFirst (fsExists : String → Bool) : List String → Option String
  | [] => none
  | p :: ps => if fsExists p then some p else findFirst fsExists ps

/-- find_monospace_font, lines 33 to 45 of generate_icon.py. -/
def find_monospace_font (fsExists : String → Bool) : Option String :=
  findFirst fsExists candidates

/-- BG_COLOR on line 29 of generate_icon.py. -/
def BG_COLOR : Nat × Nat × Nat := (0, 0, 170)

/-- TEXT_COLOR on line 30 of generate_icon.py. -/
def TEXT_COLOR : Nat × Nat × Nat := (255, 255, 255)

/-- ICON_SIZES, lines 16 to 27 of generate_icon.py. -/
def ICON_SIZES : List (String × Nat) :=
  [(r"icon_16x16.png", 16),
   (r"icon_16x16@2x.png", 32),
   (r"icon_32x32.png", 32),
   (r"icon_32x32@2x.png", 64),
   (r"icon_128x128.png", 128),
   (r"icon_128x128@2x.png", 256),
   (r"icon_256x256.png", 256),
   (r"icon_256x256@2x.png", 512),
   (r"icon_512x512.png", 512),
   (r"icon_512x512@2x.png", 1024)]

/-- Line 54 of generate_icon.py: font_size = max(int(size * 0.45), 8).
Python int truncates toward zero, so for a nonnegative size this is the
floor of size * 0.45, which equals size * 9 / 20 in natural division.
The IEEE double nearest 0.45 exceeds 9/20 by about 1.1e-17, which cannot
move the product across an integer boundary for any size below 4.5e15,
so the exact rational model agrees with the float computation on every
size the script can use. -/
def font_size (size : Nat) : Nat := max (size * 9 / 20) 8

/-- Stated from the claim wording for comparison with font_size: the font
point size as max(round(dimension * 0.45), 8), with rounding to the
nearest integer rather than truncation. -/
def font_size_claim (size : Nat) : Int :=
  max (round ((size : ℚ) * (45 / 100))) 8

/-- The fixed text drawn on every icon, line 60 of generate_icon.py. -/
def text0x : String := r"0x"

/-- The image mode requested on line 50 of generate_icon.py. -/
def modeRGBA : String := r"RGBA"

/-- Image.new(mode, (w, h), color) with an RGB triple: PIL fills every
pixel with the given color and pads the missing alpha band with 255. -/
def imageNew (mode : String) (wh : Nat × Nat) (c : Nat × Nat × Nat) : Image :=
  { mode := mode, width := wh.1, height := wh.2,
    px := fun _ _ => { r := c.1, g := c.2.1, b := c.2.2, a := 255 } }

/-- draw.text(xy, text, fill, font): pixels covered by the drawn text take
the font's painted color; every other pixel is left unchanged. -/
def drawText (img : Image) (xy : ℚ × ℚ) (text : String)
    (fill : Nat × Nat × Nat) (font : Font) : Image :=
  { img with px := fun i j =>
      if font.cov text xy i j then font.glyphColor text fill xy i j
      else img.px i j }

/-- Lines 55 to 58 of generate_icon.py: try ImageFont.truetype(font_path,
fs); on OSError or IOError substitute ImageFont.load_default(); any other
exception propagates. -/
def resolveFont (pil : PILEnv) (font_path : Option String) (fs : Nat) :
    PyResult Font :=
  match pil.truetype font_path fs with
  | PyResult.ok f => PyResult.ok f
  | PyResult.raised e =>
      if isCaughtOSError e then PyResult.ok pil.load_default
      else PyResult.raised e

/-- Lines 61 to 66 of generate_icon.py: measure the bbox of the text at
offset (0,0) and compute the draw origin
x = (size - text_w) / 2 - bbox[0], y = (size - text_h) / 2 - bbox[1],
with Python true division modelled exactly in the rationals. -/
def draw_xy (size : Nat) (font : Font) : ℚ × ℚ :=
  (((size : ℚ) - ((font.textbbox text0x).right - (font.textbbox text0x).left)) / 2
     - (font.textbbox text0x).left,
   ((size : ℚ) - ((font.textbbox text0x).bottom - (font.textbbox text0x).top)) / 2
     - (font.textbbox text0x).top)

/-- render_icon, lines 48 to 69 of generate_icon.py. The result is a
raised exception when font loading fails with an exception the except
clause does not catch; otherwise the canvas with the text drawn on it. -/
def render_icon (pil : PILEnv) (size : Nat) (font_path : Option String) :
    PyResult Image :=
  match resolveFont pil font_path (font_size size) with
  | PyResult.raised e => PyResult.raised e
  | PyResult.ok font =>
      PyResult.ok (drawText (imageNew modeRGBA (size, size) BG_COLOR)
        (draw_xy size font) text0x TEXT_COLOR font)

/-- Modelling assumption on the image library (translation invariance of
text rendering): the bounding box occupied by text drawn at origin xy is
the bounding box measured at (0,0) translated by xy. -/
def renderedBBox (font : Font) (text : String) (xy : ℚ × ℚ) : QBBox :=
  { left := xy.1 + (font.textbbox text).left,
    top := xy.2 + (font.textbbox text).top,
    right := xy.1 + (font.textbbox text).right,
    bottom := xy.2 + (font.textbbox text).bottom }

/-- Leading piece of the iconset file naming convention. -/
def iconPrefix : String := r"icon_"

/-- Separator between the two copies of the dimension in a filename. -/
def xSep : String := r"x"

/-- Marker of the double-density variant in a filename. -/
def at2x : String := r"@2x"

/-- PNG filename suffix. -/
def pngExt : String := r".png"

/-- The empty string. -/
def emptyStr : String := r""

/-- The iconset naming convention: icon_NxN.png for the base entry and
icon_NxN@2x.png for the double-density entry. -/
def iconName (n : Nat) (retina : Bool) : String :=
  iconPrefix ++ toString n ++ xSep ++ toString n ++
    (if retina then at2x else emptyStr) ++ pngExt

/-- Observable side effects of main, in program order: os.makedirs,
img.save (a PNG file write), a line printed to stdout or stderr, and the
iconutil subprocess invocation. -/
inductive Event where
  | makedirs (path : String)
  | writeFile (path : String) (img : Image)
  | printOut (msg : String)
  | printErr (msg : String)
  | runIconutil (args : List String)

/-- The file names written by a list of events, in order. -/
def writeNames (l : List Event) : List String :=
  l.filterMap fun e =>
    match e with
    | Event.writeFile n _ => some n
    | _ => none

/-- How many subprocess invocations a list of events contains. -/
def countRuns (l : List Event) : Nat :=
  l.countP fun e =>
    match e with
    | Event.runIconutil _ => true
    | _ => false

/-- How many makedirs calls a list of events contains. -/
def countMakedirs (l : List Event) : Nat :=
  l.countP fun e =>
    match e with
    | Event.makedirs _ => true
    | _ => false

/-- Effect of a list of events on a filesystem mapping file names to file
contents: each write silently overwrites whatever was there before. -/
def applyWrites (fs : String → Option Image) : List Event → (String → Option Image)
  | [] => fs
  | Event.writeFile n img :: rest =>
      applyWrites (Function.update fs n (some img)) rest
  | _ :: rest => applyWrites fs rest

/-- The last image written to a given file name by a list of events. -/
def lastWrite (n : String) : List Event → Option Image
  | [] => none
  | Event.writeFile m img :: rest =>
      match lastWrite n rest with
      | some i => some i
      | none => if m = n then some img else none
  | _ :: rest => lastWrite n rest

/-- Captured outcome of subprocess.run: return code and standard error
text (capture_output is set on line 95 of generate_icon.py). -/
structure SubprocessResult where
  returncode : Int
  stderr : String

/-- The operating-system environment main runs against: os.path.exists,
the image library, and the subprocess runner. -/
structure OSEnv where
  fsExists : String → Bool
  pil : PILEnv
  run : List String → SubprocessResult

/-- How the process ends: a normal exit with a status code, or an
uncaught Python exception. -/
inductive ExitOutcome where
  | exited (code : Nat)
  | crashed (e : PyExc)
deriving DecidableEq, Repr

/-- Path separator, for the os.path helpers. -/
def slash : String := r"/"

/-- os.path.dirname for the slash-separated absolute paths the script
manipulates: drop the last path component. -/
def dirname (s : String) : String :=
  String.intercalate slash ((s.splitOn slash).dropLast)

/-- os.path.join for a relative second component: concatenate with a
single separator. -/
def joinPath (a b : String) : String := a ++ slash ++ b

/-- Path component on line 75 of generate_icon.py. -/
def sourcesName : String := r"Sources"

/-- Path component on line 75 of generate_icon.py. -/
def bsodName : String := r"BlueScreenOfDeath"

/-- Path component on line 75 of generate_icon.py. -/
def resourcesName : String := r"Resources"

/-- resources_dir on line 75, as a function of script_dir (the directory
of the script file, an input from the real filesystem). -/
def resourcesDir (scriptDir : String) : String :=
  joinPath (joinPath (joinPath (dirname scriptDir) sourcesName) bsodName) resourcesName

/-- Final path component of the iconset directory, line 76. -/
def iconsetName : String := r"AppIcon.iconset"

/-- Final path component of the icns bundle, line 77. -/
def icnsName : String := r"AppIcon.icns"

/-- iconset_dir on line 76 of generate_icon.py. -/
def iconsetDir (scriptDir : String) : String :=
  joinPath (resourcesDir scriptDir) iconsetName

/-- icns_path on line 77 of generate_icon.py. -/
def icnsPath (scriptDir : String) : String :=
  joinPath (resourcesDir scriptDir) icnsName

/-- Subprocess argument, line 94 of generate_icon.py. -/
def iconutilName : String := r"iconutil"

/-- Subprocess flag, line 94 of generate_icon.py. -/
def dashC : String := r"-c"

/-- Subprocess mode, line 94 of generate_icon.py. -/
def icnsMode : String := r"icns"

/-- Subprocess flag, line 94 of generate_icon.py. -/
def dashO : String := r"-o"

/-- The argument vector of the subprocess invocation on line 94. -/
def iconutilArgs (scriptDir : String) : List String :=
  [iconutilName, dashC, icnsMode, iconsetDir scriptDir, dashO, icnsPath scriptDir]

/-- Warning printed to stderr on line 83 of generate_icon.py. -/
def warnMsg : String := r"Warning: No monospace font found, using default"

/-- Prefix of the progress line printed on line 92. -/
def creatingMsg : String := r"  Creating "

/-- Prefix of the success line printed on line 102. -/
def createdMsg : String := r"  App icon created: "

/-- Prefix of the error line printed on line 99. -/
def iconutilErrMsg : String := r"Error running iconutil: "

/-- The progress line printed on line 89 for one generated file. -/
def genMsg (fn : String) (sz : Nat) : String :=
  r"  Generated " ++ fn ++ r" (" ++ toString sz ++ xSep ++ toString sz ++ r")"

/-- Python falsiness of the font_path value tested on line 82: None and
the empty string are falsy. -/
def isFalsy : Option String → Bool
  | none => true
  | some s => s.isEmpty

/-- The stderr warning events of lines 82 to 83. -/
def warnEvents (fp : Option String) : List Event :=
  if isFalsy fp then [Event.printErr warnMsg] else []

/-- The generation loop of lines 85 to 89: for each (filename, size)
entry render the icon, write it, and print a progress line. An uncaught
exception from render_icon aborts the loop, keeping the events of the
entries already processed. -/
def genLoop (pil : PILEnv) (fp : Option String) (dir : String) :
    List (String × Nat) → List Event × Option PyExc
  | [] => ([], none)
  | (fn, sz) :: rest =>
      match render_icon pil sz fp with
      | PyResult.raised e => ([], some e)
      | PyResult.ok img =>
          (Event.writeFile (joinPath dir fn) img ::
             Event.printOut (genMsg fn sz) :: (genLoop pil fp dir rest).1,
           (genLoop pil fp dir rest).2)

/-- The events of main up to and including the iconutil invocation, on
the path where the generation loop completed. -/
def mainPrefix (env : OSEnv) (scriptDir : String) : List Event :=
  Event.makedirs (iconsetDir scriptDir) ::
    (warnEvents (find_monospace_font env.fsExists) ++
      (genLoop env.pil (find_monospace_font env.fsExists)
        (iconsetDir scriptDir) ICON_SIZES).1 ++
      [Event.printOut (creatingMsg ++ icnsPath scriptDir),
       Event.runIconutil (iconutilArgs scriptDir)])

/-- main, lines 72 to 102 of generate_icon.py, as the list of observable
events in program order together with the process outcome: makedirs,
optional font warning, the generation loop, the Creating line, the
iconutil invocation, then sys.exit(1) after printing the captured stderr
when the return code is nonzero, else a normal exit with status 0. -/
def mainProg (env : OSEnv) (scriptDir : String) : List Event × ExitOutcome :=
  match (genLoop env.pil (find_monospace_font env.fsExists)
      (iconsetDir scriptDir) ICON_SIZES).2 with
  | some e =>
      (Event.makedirs (iconsetDir scriptDir) ::
         (warnEvents (find_monospace_font env.fsExists) ++
           (genLoop env.pil (find_monospace_font env.fsExists)
             (iconsetDir scriptDir) ICON_SIZES).1),
       ExitOutcome.crashed e)
  | none =>
      if (env.run (iconutilArgs scriptDir)).returncode ≠ 0 then
        (mainPrefix env scriptDir ++
           [Event.printErr (iconutilErrMsg ++
              (env.run (iconutilArgs scriptDir)).stderr)],
         ExitOutcome.exited 1)
      else
        (mainPrefix env scriptDir ++
           [Event.printOut (createdMsg ++ icnsPath scriptDir)],
         ExitOutcome.exited 0)

/-- Modelled from Pillow, the image library the script imports (its code
is not part of this repository): ImageFont.truetype(None, size) calls
read() on None inside FreeTypeFont and raises AttributeError, which is
not an OSError. -/
def pillowNoneBehavior (pil : PILEnv) : Prop :=
  ∀ sz : Nat, pil.truetype none sz = PyResult.raised PyExc.attributeError

/-- A concrete font fixture for witnesses: the text 0x measures to the
box (0, 2, 10, 8) and covers no pixel (an extreme but legal library
behavior; coverage is irrelevant to the properties witnessed). -/
def testFont : Font :=
  { textbbox := fun _ => { left := 0, top := 2, right := 10, bottom := 8 },
    cov := fun _ _ _ _ => false,
    glyphColor := fun _ fill _ _ _ => { r := fill.1, g := fill.2.1, b := fill.2.2, a := 255 } }

/-- A concrete image-library fixture for witnesses: every font loads. -/
def testPIL : PILEnv :=
  { truetype := fun _ _ => PyResult.ok testFont,
    load_default := testFont }

/-- A concrete script directory for witnesses. -/
def testScriptDir : String := r"/repo/scripts"

/-- stderr text of the stubbed failing packaging tool. -/
def badFormatMsg : String := r"bad format"

/-- A concrete environment for witnesses: the Menlo candidate exists,
fonts load, and iconutil succeeds. -/
def testEnv : OSEnv :=
  { fsExists := fun s => s == menloPath,
    pil := testPIL,
    run := fun _ => { returncode := 0, stderr := emptyStr } }

/-- A concrete environment whose packaging tool fails with return code 1
and the stderr text bad format. -/
def failEnv : OSEnv :=
  { fsExists := fun s => s == menloPath,
    pil := testPIL,
    run := fun _ => { returncode := 1, stderr := badFormatMsg } }

/-- A concrete environment with no candidate font on disk and an image
library showing the Pillow behavior on a None font path. -/
def noFontEnv : OSEnv :=
  { fsExists := fun _ => false,
    pil := { truetype := fun _ _ => PyResult.raised PyExc.attributeError,
             load_default := testFont },
    run := fun _ => { returncode := 0, stderr := emptyStr } }

/-- A concrete filesystem predicate for the font-resolver witness: only
the third candidate exists. -/
def testFS : String → Bool := fun s => s == monacoPath

/-- The image the renderer produces at size 16 in the test environment. -/
def testImg16 : Image :=
  drawText (imageNew modeRGBA (16, 16) BG_COLOR) (draw_xy 16 testFont)
    text0x TEXT_COLOR testFont

/-- Helper: findFirst returns none exactly when no listed path exists. -/
theorem findFirst_eq_none (fs : String → Bool) (l : List String) :
    findFirst fs l = none ↔ ∀ p ∈ l, fs p = false := by
  induction l with
  | nil => simp [findFirst]
  | cons a as ih =>
    cases hb : fs a with
    | true => simp [findFirst, hb]
    | false => simp [findFirst, hb, ih]

/-- Helper: a path returned by findFirst exists, and every candidate
listed before it does not. -/
theorem findFirst_eq_some (fs : String → Bool) (l : List String) (p : String)
    (h : findFirst fs l = some p) :
    fs p = true ∧ ∃ l1 l2, l = l1 ++ p :: l2 ∧ ∀ q ∈ l1, fs q = false := by
  induction l with
  | nil => simp [findFirst] at h
  | cons a as ih =>
    cases hb : fs a with
    | true =>
      simp only [findFirst, hb, if_true] at h
      obtain rfl := Option.some.inj h
      exact ⟨hb, [], as, by simp, by simp⟩
    | false =>
      simp only [findFirst, hb, Bool.false_eq_true, if_false] at h
      obtain ⟨hfp, l1, l2, rfl, hall⟩ := ih h
      refine ⟨hfp, a :: l1, l2, by simp, ?_⟩
      intro q hq
      rcases List.mem_cons.mp hq with rfl | hq2
      · exact hb
      · exact hall q hq2

/-- C8: the font resolver, given its ordered candidate list, returns the
first path that exists on disk, and returns the sentinel None when no
candidate exists; being a total function of the filesystem predicate it
never raises. -/
theorem C8_find_monospace_font_first (fs : String → Bool) :
    (find_monospace_font fs = none ↔ ∀ p ∈ candidates, fs p = false) ∧
    (∀ p : String, find_monospace_font fs = some p →
      fs p = true ∧ ∃ l1 l2, candidates = l1 ++ p :: l2 ∧
        ∀ q ∈ l1, fs q = false) :=
  ⟨findFirst_eq_none fs candidates,
   fun p h => findFirst_eq_some fs candidates p h⟩

/-- Witness for C8: with only the third candidate on disk, the resolver
returns it and the two candidates before it are the ones that fail the
existence test. -/
theorem C8_find_monospace_font_first_witness :
    testFS monacoPath = true ∧
    ∃ l1 l2, candidates = l1 ++ monacoPath :: l2 ∧
      ∀ q ∈ l1, testFS q = false :=
  (C8_find_monospace_font_first testFS).2 monacoPath (by decide)

/-- C2 counterexample: at dimension 64 the code truncates 64 * 0.45 =
28.8 to 28 via int(), while the claimed formula with round gives 29, so
the claimed equality fails at this dimension. -/
theorem C2_font_size_round_cex :
    (font_size 64 : Int) ≠ font_size_claim 64 ∧
    font_size 64 = 28 ∧ font_size_claim 64 = 29 := by
  refine ⟨?_, by decide, ?_⟩ <;>
    norm_num [font_size, font_size_claim, round_eq]

/-- C2 as amended: for every pixel dimension the renderer loads the font
at a point size equal to the floor (truncation) of dimension * 0.45, with
a floor of 8 pixels. -/
theorem C2_font_size_floor (size : Nat) :
    font_size size = max (Nat.floor ((size : ℚ) * (45 / 100))) 8 ∧
    8 ≤ font_size size := by
  constructor
  · have h1 : ((size : ℚ) * (45 / 100)) = ((size * 9 : Nat) : ℚ) / ((20 : Nat) : ℚ) := by
      push_cast; ring
    rw [font_size, h1, Nat.floor_div_nat, Nat.floor_natCast]
  · exact le_max_right _ _

/-- C10: every entry of ICON_SIZES follows the naming convention with a
dimension matching its name (the base entry icon_NxN.png has dimension N,
the double-density entry icon_NxN@2x.png has dimension 2 * N), the ten
filenames are pairwise distinct, and every dimension is positive. -/
theorem C10_icon_sizes_consistent :
    ICON_SIZES =
      [(iconName 16 false, 16), (iconName 16 true, 2 * 16),
       (iconName 32 false, 32), (iconName 32 true, 2 * 32),
       (iconName 128 false, 128), (iconName 128 true, 2 * 128),
       (iconName 256 false, 256), (iconName 256 true, 2 * 256),
       (iconName 512 false, 512), (iconName 512 true, 2 * 512)] ∧
    (ICON_SIZES.map Prod.fst).Nodup ∧
    ICON_SIZES.all (fun p => decide (0 < p.2)) = true :=
  ⟨by decide, by decide, by decide⟩

/-- Helper: a successfully rendered icon is a square of the requested
size in RGBA mode (drawing text changes no dimension or mode). -/
theorem render_ok_shape (pil : PILEnv) (size : Nat) (fp : Option String)
    (img : Image) (h : render_icon pil size fp = PyResult.ok img) :
    img.width = size ∧ img.height = size ∧ img.mode = modeRGBA := by
  unfold render_icon at h
  cases hres : resolveFont pil fp (font_size size) with
  | raised e =>
    rw [hres] at h
    exact PyResult.noConfusion h
  | ok font =>
    rw [hres] at h
    obtain rfl := PyResult.ok.inj h
    exact ⟨rfl, rfl, rfl⟩

/-- C5: for every entry of the Size Specification list, an image the
renderer produces has width and height both equal to the entry's pixel
dimension, in RGBA mode. -/
theorem C5_render_size (p : String × Nat) (hp : p ∈ ICON_SIZES)
    (pil : PILEnv) (fp : Option String) (img : Image)
    (h : render_icon pil p.2 fp = PyResult.ok img) :
    img.width = p.2 ∧ img.height = p.2 ∧ img.mode = modeRGBA :=
  render_ok_shape pil p.2 fp img h

/-- Witness for C5 at the first Size Specification entry in the test
environment. -/
theorem C5_render_size_witness :
    render_icon testPIL 16 (some menloPath) = PyResult.ok testImg16 ∧
    testImg16.width = 16 ∧ testImg16.height = 16 ∧ testImg16.mode = modeRGBA :=
  ⟨rfl, C5_render_size (r"icon_16x16.png", 16) (by decide) testPIL
    (some menloPath) testImg16 rfl⟩

/-- C1: when the font resolves, the renderer draws the text at the
origin given by the claimed formulas (over the measured bounding box of
the text at offset (0,0)), and consequently the horizontal and vertical
centers of the rendered bounding box agree with the canvas centers
within one pixel (they agree exactly in the rational model). -/
theorem C1_render_centered (pil : PILEnv) (fp : Option String) (size : Nat)
    (f : Font) (hf : resolveFont pil fp (font_size size) = PyResult.ok f) :
    render_icon pil size fp =
      PyResult.ok (drawText (imageNew modeRGBA (size, size) BG_COLOR)
        (draw_xy size f) text0x TEXT_COLOR f) ∧
    draw_xy size f =
      (((size : ℚ) - ((f.textbbox text0x).right - (f.textbbox text0x).left)) / 2
         - (f.textbbox text0x).left,
       ((size : ℚ) - ((f.textbbox text0x).bottom - (f.textbbox text0x).top)) / 2
         - (f.textbbox text0x).top) ∧
    |((renderedBBox f text0x (draw_xy size f)).left +
        (renderedBBox f text0x (draw_xy size f)).right) / 2 - (size : ℚ) / 2| ≤ 1 ∧
    |((renderedBBox f text0x (draw_xy size f)).top +
        (renderedBBox f text0x (draw_xy size f)).bottom) / 2 - (size : ℚ) / 2| ≤ 1 := by
  refine ⟨?_, rfl, ?_, ?_⟩
  · unfold render_icon
    rw [hf]
  · have h0 : ((renderedBBox f text0x (draw_xy size f)).left +
        (renderedBBox f text0x (draw_xy size f)).right) / 2 - (size : ℚ) / 2 = 0 := by
      simp only [renderedBBox, draw_xy]
      ring
    rw [h0]
    norm_num
  · have h0 : ((renderedBBox f text0x (draw_xy size f)).top +
        (renderedBBox f text0x (draw_xy size f)).bottom) / 2 - (size : ℚ) / 2 = 0 := by
      simp only [renderedBBox, draw_xy]
      ring
    rw [h0]
    norm_num

/-- Witness for C1 in the test environment at dimension 16. -/
theorem C1_render_centered_witness :
    render_icon testPIL 16 (some menloPath) =
      PyResult.ok (drawText (imageNew modeRGBA (16, 16) BG_COLOR)
        (draw_xy 16 testFont) text0x TEXT_COLOR testFont) ∧
    draw_xy 16 testFont =
      ((((16 : Nat) : ℚ) -
          ((testFont.textbbox text0x).right - (testFont.textbbox text0x).left)) / 2
         - (testFont.textbbox text0x).left,
       (((16 : Nat) : ℚ) -
          ((testFont.textbbox text0x).bottom - (testFont.textbbox text0x).top)) / 2
         - (testFont.textbbox text0x).top) ∧
    |((renderedBBox testFont text0x (draw_xy 16 testFont)).left +
        (renderedBBox testFont text0x (draw_xy 16 testFont)).right) / 2
      - ((16 : Nat) : ℚ) / 2| ≤ 1 ∧
    |((renderedBBox testFont text0x (draw_xy 16 testFont)).top +
        (renderedBBox testFont text0x (draw_xy 16 testFont)).bottom) / 2
      - ((16 : Nat) : ℚ) / 2| ≤ 1 :=
  C1_render_centered testPIL (some menloPath) 16 testFont rfl

/-- C6: when the font resolves, the renderer produces an image in which
every pixel not covered by a glyph stroke has the fixed background
color (0, 0, 170) at full opacity 255. -/
theorem C6_background_pixels (pil : PILEnv) (fp : Option String) (size : Nat)
    (f : Font) (hf : resolveFont pil fp (font_size size) = PyResult.ok f)
    (i j : Nat) (hcov : f.cov text0x (draw_xy size f) i j = false) :
    ∃ img, render_icon pil size fp = PyResult.ok img ∧
      img.px i j = { r := 0, g := 0, b := 170, a := 255 } := by
  refine ⟨drawText (imageNew modeRGBA (size, size) BG_COLOR)
    (draw_xy size f) text0x TEXT_COLOR f, ?_, ?_⟩
  · unfold render_icon
    rw [hf]
  · simp [drawText, imageNew, hcov, BG_COLOR]

/-- Witness for C6 at the corner pixel (0,0) of a 16 by 16 icon in the
test environment. -/
theorem C6_background_pixels_witness :
    ∃ img, render_icon testPIL 16 (some menloPath) = PyResult.ok img ∧
      img.px 0 0 = { r := 0, g := 0, b := 170, a := 255 } :=
  C6_background_pixels testPIL (some menloPath) 16 testFont rfl 0 0 rfl

/-- Helper: when every render in the list succeeds, the generation loop
raises nothing, writes exactly one file per entry in list order, and
contains no subprocess or makedirs event; each entry's written image is
the renderer's output for its size. -/
theorem genLoop_ok (pil : PILEnv) (fp : Option String) (dir : String)
    (l : List (String × Nat))
    (h : ∀ p ∈ l, (render_icon pil p.2 fp).isOk = true) :
    (genLoop pil fp dir l).2 = none ∧
    writeNames (genLoop pil fp dir l).1 = l.map (fun p => joinPath dir p.1) ∧
    countRuns (genLoop pil fp dir l).1 = 0 ∧
    countMakedirs (genLoop pil fp dir l).1 = 0 ∧
    ∀ p ∈ l, ∃ img, render_icon pil p.2 fp = PyResult.ok img ∧
      Event.writeFile (joinPath dir p.1) img ∈ (genLoop pil fp dir l).1 := by
  induction l with
  | nil => simp [genLoop, writeNames, countRuns, countMakedirs]
  | cons hd tl ih =>
    obtain ⟨fn, sz⟩ := hd
    have hhd : (render_icon pil sz fp).isOk = true :=
      h (fn, sz) (List.mem_cons_self _ _)
    obtain ⟨img, himg⟩ : ∃ img, render_icon pil sz fp = PyResult.ok img := by
      cases hr : render_icon pil sz fp with
      | ok i => exact ⟨i, rfl⟩
      | raised e =>
        rw [hr] at hhd
        simp [PyResult.isOk] at hhd
    obtain ⟨h1, h2, h3, h4, h5⟩ := ih (fun p hp => h p (List.mem_cons_of_mem _ hp))
    refine ⟨?_, ?_, ?_, ?_, ?_⟩
    · simp [genLoop, himg, h1]
    · simp [genLoop, himg, writeNames, List.filterMap_cons] at h2 ⊢
      exact h2
    · simp [genLoop, himg, countRuns, List.countP_cons] at h3 ⊢
      exact h3
    · simp [genLoop, himg, countMakedirs, List.countP_cons] at h4 ⊢
      exact h4
    · intro p hp
      rcases List.mem_cons.mp hp with rfl | hp2
      · exact ⟨img, himg, by simp [genLoop, himg]⟩
      · obtain ⟨i, hi, hmem⟩ := h5 p hp2
        refine ⟨i, hi, ?_⟩
        simp only [genLoop, himg]
        exact List.mem_cons_of_mem _ (List.mem_cons_of_mem _ hmem)

/-- Helper: applying a list of events to a filesystem reads back, at each
name, the last image written to that name, and elsewhere the original
content. -/
theorem applyWrites_eq (l : List Event) :
    ∀ (fs : String → Option Image) (n : String),
      applyWrites fs l n =
        match lastWrite n l with
        | some i => some i
        | none => fs n := by
  induction l with
  | nil =>
    intro fs n
    simp [applyWrites, lastWrite]
  | cons e rest ih =>
    intro fs n
    cases e with
    | writeFile m img =>
      simp only [applyWrites, lastWrite]
      rw [ih]
      cases hlw : lastWrite n rest with
      | some i => simp [hlw]
      | none =>
        simp only [hlw]
        by_cases hm : m = n
        · subst hm
          simp [Function.update_apply]
        · rw [Function.update_noteq (Ne.symm hm)]
          simp [hm]
    | makedirs p => simp only [applyWrites, lastWrite]; exact ih fs n
    | printOut msg => simp only [applyWrites, lastWrite]; exact ih fs n
    | printErr msg => simp only [applyWrites, lastWrite]; exact ih fs n
    | runIconutil args => simp only [applyWrites, lastWrite]; exact ih fs n

/-- Helper: a name among the written names has a last written image. -/
theorem mem_writeNames_lastWrite (n : String) (l : List Event)
    (h : n ∈ writeNames l) : ∃ i, lastWrite n l = some i := by
  induction l with
  | nil => simp [writeNames] at h
  | cons e rest ih =>
    cases e with
    | writeFile m img =>
      simp only [writeNames, List.filterMap_cons] at h
      rcases List.mem_cons.mp h with rfl | h2
      · cases hlw : lastWrite n rest with
        | some i => exact ⟨i, by simp [lastWrite, hlw]⟩
        | none => exact ⟨img, by simp [lastWrite, hlw]⟩
      · obtain ⟨i, hi⟩ := ih h2
        exact ⟨i, by simp [lastWrite, hi]⟩
    | makedirs p =>
      simp only [writeNames, List.filterMap_cons] at h
      obtain ⟨i, hi⟩ := ih h
      exact ⟨i, by simp [lastWrite, hi]⟩
    | printOut msg =>
      simp only [writeNames, List.filterMap_cons] at h
      obtain ⟨i, hi⟩ := ih h
      exact ⟨i, by simp [lastWrite, hi]⟩
    | printErr msg =>
      simp only [writeNames, List.filterMap_cons] at h
      obtain ⟨i, hi⟩ := ih h
      exact ⟨i, by simp [lastWrite, hi]⟩
    | runIconutil args =>
      simp only [writeNames, List.filterMap_cons] at h
      obtain ⟨i, hi⟩ := ih h
      exact ⟨i, by simp [lastWrite, hi]⟩

/-- Helper: replaying the same writes a second time changes nothing. -/
theorem applyWrites_idem (l : List Event) (fs : String → Option Image) :
    applyWrites (applyWrites fs l) l = applyWrites fs l := by
  funext n
  simp only [applyWrites_eq]
  cases hlw : lastWrite n l with
  | some i => simp
  | none => simp

/-- Helper: at a written name, the final content does not depend on what
the filesystem held before (silent overwrite). -/
theorem applyWrites_written (l : List Event) (fs0 fs1 : String → Option Image)
    (n : String) (h : n ∈ writeNames l) :
    applyWrites fs0 l n = applyWrites fs1 l n := by
  obtain ⟨i, hi⟩ := mem_writeNames_lastWrite n l h
  simp only [applyWrites_eq, hi]

/-- Helper: writeNames distributes over append. -/
theorem writeNames_append (a b : List Event) :
    writeNames (a ++ b) = writeNames a ++ writeNames b := by
  simp [writeNames, List.filterMap_append]

/-- Helper: countRuns adds over append. -/
theorem countRuns_append (a b : List Event) :
    countRuns (a ++ b) = countRuns a + countRuns b := by
  simp [countRuns, List.countP_append]

/-- Helper: countMakedirs adds over append. -/
theorem countMakedirs_append (a b : List Event) :
    countMakedirs (a ++ b) = countMakedirs a + countMakedirs b := by
  simp [countMakedirs, List.countP_append]

/-- Helper: the optional font warning writes no file. -/
theorem writeNames_warnEvents (fp : Option String) :
    writeNames (warnEvents fp) = [] := by
  unfold warnEvents
  split <;> simp [writeNames]

/-- Helper: the optional font warning runs no subprocess. -/
theorem countRuns_warnEvents (fp : Option String) :
    countRuns (warnEvents fp) = 0 := by
  unfold warnEvents
  split <;> simp [countRuns, List.countP_cons]

/-- Helper: the optional font warning creates no directory. -/
theorem countMakedirs_warnEvents (fp : Option String) :
    countMakedirs (warnEvents fp) = 0 := by
  unfold warnEvents
  split <;> simp [countMakedirs, List.countP_cons]

/-- Helper: when the generation loop completes, the trace of mainProg is
its prefix up to the iconutil invocation followed by exactly one final
diagnostic line chosen by the subprocess return code. -/
theorem mainProg_ok_trace (env : OSEnv) (scriptDir : String)
    (h1 : (genLoop env.pil (find_monospace_font env.fsExists)
      (iconsetDir scriptDir) ICON_SIZES).2 = none) :
    (mainProg env scriptDir).1 = mainPrefix env scriptDir ++
      [if (env.run (iconutilArgs scriptDir)).returncode ≠ 0 then
         Event.printErr (iconutilErrMsg ++ (env.run (iconutilArgs scriptDir)).stderr)
       else Event.printOut (createdMsg ++ icnsPath scriptDir)] := by
  unfold mainProg
  rw [h1]
  by_cases hc : (env.run (iconutilArgs scriptDir)).returncode ≠ 0 <;> simp [hc]

/-- Helper: when the generation loop completes, mainProg exits with
status 1 on a nonzero iconutil return code and with status 0 otherwise. -/
theorem mainProg_ok_exit (env : OSEnv) (scriptDir : String)
    (h1 : (genLoop env.pil (find_monospace_font env.fsExists)
      (iconsetDir scriptDir) ICON_SIZES).2 = none) :
    (mainProg env scriptDir).2 =
      (if (env.run (iconutilArgs scriptDir)).returncode ≠ 0 then
        ExitOutcome.exited 1 else ExitOutcome.exited 0) := by
  unfold mainProg
  rw [h1]
  by_cases hc : (env.run (iconutilArgs scriptDir)).returncode ≠ 0 <;> simp [hc]

/-- Helper: writeNames on nil. -/
theorem writeNames_nil : writeNames [] = [] := rfl

/-- Helper: countRuns on nil. -/
theorem countRuns_nil : countRuns [] = 0 := rfl

/-- Helper: countMakedirs on nil. -/
theorem countMakedirs_nil : countMakedirs [] = 0 := rfl

/-- Helper: writeNames on a cons, by case on the head event. -/
theorem writeNames_cons (e : Event) (l : List Event) :
    writeNames (e :: l) =
      (match e with | Event.writeFile n _ => [n] | _ => []) ++ writeNames l := by
  cases e <;> simp [writeNames, List.filterMap_cons]

/-- Helper: countRuns on a cons, by case on the head event. -/
theorem countRuns_cons (e : Event) (l : List Event) :
    countRuns (e :: l) =
      (match e with | Event.runIconutil _ => 1 | _ => 0) + countRuns l := by
  cases e <;> simp [countRuns, List.countP_cons, Nat.add_comm]

/-- Helper: countMakedirs on a cons, by case on the head event. -/
theorem countMakedirs_cons (e : Event) (l : List Event) :
    countMakedirs (e :: l) =
      (match e with | Event.makedirs _ => 1 | _ => 0) + countMakedirs l := by
  cases e <;> simp [countMakedirs, List.countP_cons, Nat.add_comm]

/-- Helper: the final diagnostic line of mainProg writes no file. -/
theorem writeNames_finalEvent (c : Prop) [Decidable c] (a b : String) :
    writeNames [if c then Event.printErr a else Event.printOut b] = [] := by
  split <;> simp [writeNames]

/-- Helper: the final diagnostic line of mainProg runs no subprocess. -/
theorem countRuns_finalEvent (c : Prop) [Decidable c] (a b : String) :
    countRuns [if c then Event.printErr a else Event.printOut b] = 0 := by
  split <;> simp [countRuns, List.countP_cons]

/-- Helper: the final diagnostic line of mainProg makes no directory. -/
theorem countMakedirs_finalEvent (c : Prop) [Decidable c] (a b : String) :
    countMakedirs [if c then Event.printErr a else Event.printOut b] = 0 := by
  split <;> simp [countMakedirs, List.countP_cons]

/-- Helper: the trace up to the subprocess call contains exactly one
subprocess invocation. -/
theorem countRuns_mainPrefix (env : OSEnv) (scriptDir : String)
    (h3 : countRuns (genLoop env.pil (find_monospace_font env.fsExists)
      (iconsetDir scriptDir) ICON_SIZES).1 = 0) :
    countRuns (mainPrefix env scriptDir) = 1 := by
  unfold mainPrefix
  simp [countRuns_cons, countRuns_append, countRuns_warnEvents, countRuns_nil, h3]

/-- Helper: the trace up to the subprocess call contains exactly one
makedirs call. -/
theorem countMakedirs_mainPrefix (env : OSEnv) (scriptDir : String)
    (h4 : countMakedirs (genLoop env.pil (find_monospace_font env.fsExists)
      (iconsetDir scriptDir) ICON_SIZES).1 = 0) :
    countMakedirs (mainPrefix env scriptDir) = 1 := by
  unfold mainPrefix
  simp [countMakedirs_cons, countMakedirs_append, countMakedirs_warnEvents,
    countMakedirs_nil, h4]

/-- C4: when every render succeeds, the program exits with status 0 and
reports the destination bundle path if the packaging utility returns 0,
exits with status 1 after printing the captured stderr text if it
returns nonzero, and invokes the utility exactly once (no retry). -/
theorem C4_iconutil_exit (env : OSEnv) (scriptDir : String)
    (h : ∀ p ∈ ICON_SIZES,
      (render_icon env.pil p.2 (find_monospace_font env.fsExists)).isOk = true) :
    ((env.run (iconutilArgs scriptDir)).returncode = 0 →
      (mainProg env scriptDir).2 = ExitOutcome.exited 0 ∧
      Event.printOut (createdMsg ++ icnsPath scriptDir) ∈ (mainProg env scriptDir).1) ∧
    ((env.run (iconutilArgs scriptDir)).returncode ≠ 0 →
      (mainProg env scriptDir).2 = ExitOutcome.exited 1 ∧
      Event.printErr (iconutilErrMsg ++ (env.run (iconutilArgs scriptDir)).stderr) ∈
        (mainProg env scriptDir).1) ∧
    countRuns (mainProg env scriptDir).1 = 1 := by
  obtain ⟨h1, h2, h3, h4, h5⟩ := genLoop_ok env.pil (find_monospace_font env.fsExists)
    (iconsetDir scriptDir) ICON_SIZES h
  have htr := mainProg_ok_trace env scriptDir h1
  have hex := mainProg_ok_exit env scriptDir h1
  refine ⟨?_, ?_, ?_⟩
  · intro hrc
    constructor
    · rw [hex]
      simp [hrc]
    · rw [htr]
      simp [hrc]
  · intro hrc
    constructor
    · rw [hex]
      simp [hrc]
    · rw [htr]
      simp [hrc]
  · rw [htr, countRuns_append, countRuns_mainPrefix env scriptDir h3,
      countRuns_finalEvent]

/-- Witness for C4: with the packaging utility stubbed to return code 1
and stderr bad format, the program exits with status 1 and prints the
captured stderr text. -/
theorem C4_iconutil_exit_witness :
    (mainProg failEnv testScriptDir).2 = ExitOutcome.exited 1 ∧
    Event.printErr (iconutilErrMsg ++ badFormatMsg) ∈
      (mainProg failEnv testScriptDir).1 :=
  (C4_iconutil_exit failEnv testScriptDir (by decide)).2.1 (by decide)

/-- C7: when every render succeeds, the trace of mainProg is makedirs
first, then a body containing exactly one file write per Size
Specification entry in list order, then the single iconutil invocation,
then a tail with no writes; makedirs happens once, the utility runs
once, and the program ends in a normal exit with status 0 or 1. Nothing
in the event vocabulary deletes a file, so writes before a failure are
never rolled back. -/
theorem C7_pipeline_order (env : OSEnv) (scriptDir : String)
    (h : ∀ p ∈ ICON_SIZES,
      (render_icon env.pil p.2 (find_monospace_font env.fsExists)).isOk = true) :
    ∃ body tail,
      (mainProg env scriptDir).1 =
        Event.makedirs (iconsetDir scriptDir) :: body ++
          Event.runIconutil (iconutilArgs scriptDir) :: tail ∧
      writeNames body =
        ICON_SIZES.map (fun p => joinPath (iconsetDir scriptDir) p.1) ∧
      writeNames tail = [] ∧
      countMakedirs (mainProg env scriptDir).1 = 1 ∧
      countRuns (mainProg env scriptDir).1 = 1 ∧
      ((mainProg env scriptDir).2 = ExitOutcome.exited 0 ∨
        (mainProg env scriptDir).2 = ExitOutcome.exited 1) := by
  obtain ⟨h1, h2, h3, h4, h5⟩ := genLoop_ok env.pil (find_monospace_font env.fsExists)
    (iconsetDir scriptDir) ICON_SIZES h
  have htr := mainProg_ok_trace env scriptDir h1
  have hex := mainProg_ok_exit env scriptDir h1
  refine ⟨warnEvents (find_monospace_font env.fsExists) ++
      (genLoop env.pil (find_monospace_font env.fsExists)
        (iconsetDir scriptDir) ICON_SIZES).1 ++
      [Event.printOut (creatingMsg ++ icnsPath scriptDir)],
    [if (env.run (iconutilArgs scriptDir)).returncode ≠ 0 then
       Event.printErr (iconutilErrMsg ++ (env.run (iconutilArgs scriptDir)).stderr)
     else Event.printOut (createdMsg ++ icnsPath scriptDir)],
    ?_, ?_, ?_, ?_, ?_, ?_⟩
  · rw [htr]
    unfold mainPrefix
    simp [List.append_assoc]
  · simp [writeNames_append, writeNames_warnEvents, writeNames_cons,
      writeNames_nil, h2]
  · exact writeNames_finalEvent _ _ _
  · rw [htr, countMakedirs_append, countMakedirs_mainPrefix env scriptDir h4,
      countMakedirs_finalEvent]
  · rw [htr, countRuns_append, countRuns_mainPrefix env scriptDir h3,
      countRuns_finalEvent]
  · rw [hex]
    by_cases hc : (env.run (iconutilArgs scriptDir)).returncode ≠ 0 <;> simp [hc]

/-- Witness for C7 in the test environment. -/
theorem C7_pipeline_order_witness :
    ∃ body tail,
      (mainProg testEnv testScriptDir).1 =
        Event.makedirs (iconsetDir testScriptDir) :: body ++
          Event.runIconutil (iconutilArgs testScriptDir) :: tail ∧
      writeNames body =
        ICON_SIZES.map (fun p => joinPath (iconsetDir testScriptDir) p.1) ∧
      writeNames tail = [] ∧
      countMakedirs (mainProg testEnv testScriptDir).1 = 1 ∧
      countRuns (mainProg testEnv testScriptDir).1 = 1 ∧
      ((mainProg testEnv testScriptDir).2 = ExitOutcome.exited 0 ∨
        (mainProg testEnv testScriptDir).2 = ExitOutcome.exited 1) :=
  C7_pipeline_order testEnv testScriptDir (by decide)

/-- C9: when every render succeeds, the batch step writes exactly the
Size Specification filenames (one per entry, in order); the resulting
file contents do not depend on what the filesystem previously held at
those names (silent overwrite); replaying the identical run leaves the
filesystem unchanged; and each entry's written image has that entry's
pixel dimension. -/
theorem C9_batch_idempotent (env : OSEnv) (scriptDir : String)
    (h : ∀ p ∈ ICON_SIZES,
      (render_icon env.pil p.2 (find_monospace_font env.fsExists)).isOk = true) :
    writeNames (mainProg env scriptDir).1 =
      ICON_SIZES.map (fun p => joinPath (iconsetDir scriptDir) p.1) ∧
    (∀ fs0 fs1 : String → Option Image, ∀ n ∈ writeNames (mainProg env scriptDir).1,
      applyWrites fs0 (mainProg env scriptDir).1 n =
        applyWrites fs1 (mainProg env scriptDir).1 n) ∧
    (∀ fs0 : String → Option Image,
      applyWrites (applyWrites fs0 (mainProg env scriptDir).1)
        (mainProg env scriptDir).1 = applyWrites fs0 (mainProg env scriptDir).1) ∧
    (∀ p ∈ ICON_SIZES, ∃ img,
      Event.writeFile (joinPath (iconsetDir scriptDir) p.1) img ∈
        (mainProg env scriptDir).1 ∧
      img.width = p.2 ∧ img.height = p.2) := by
  obtain ⟨h1, h2, h3, h4, h5⟩ := genLoop_ok env.pil (find_monospace_font env.fsExists)
    (iconsetDir scriptDir) ICON_SIZES h
  have htr := mainProg_ok_trace env scriptDir h1
  refine ⟨?_, ?_, ?_, ?_⟩
  · rw [htr, writeNames_append, writeNames_finalEvent]
    unfold mainPrefix
    simp [writeNames_cons, writeNames_append, writeNames_warnEvents,
      writeNames_nil, h2]
  · intro fs0 fs1 n hn
    exact applyWrites_written _ fs0 fs1 n hn
  · intro fs0
    exact applyWrites_idem _ fs0
  · intro p hp
    obtain ⟨img, hrend, hmem⟩ := h5 p hp
    obtain ⟨hw, hh, _⟩ := render_ok_shape env.pil p.2
      (find_monospace_font env.fsExists) img hrend
    refine ⟨img, ?_, hw, hh⟩
    rw [htr]
    apply List.mem_append_left
    unfold mainPrefix
    exact List.mem_cons_of_mem _
      (List.mem_append_left _ (List.mem_append_right _ hmem))

/-- Witness for C9 in the test environment: the written names are the
Size Specification filenames joined onto the iconset directory. -/
theorem C9_batch_idempotent_witness :
    writeNames (mainProg testEnv testScriptDir).1 =
      ICON_SIZES.map (fun p => joinPath (iconsetDir testScriptDir) p.1) :=
  (C9_batch_idempotent testEnv testScriptDir (by decide)).1

/-- C3 (code bug): when no candidate font exists, main passes None to
render_icon and truetype raises AttributeError, which the except clause
for OSError and IOError does not catch, so the program crashes with an
uncaught exception right after printing the font warning, instead of
falling back to the default font. -/
theorem C3_none_font_crash (env : OSEnv) (scriptDir : String)
    (hfs : ∀ p ∈ candidates, env.fsExists p = false)
    (hpil : pillowNoneBehavior env.pil) :
    (mainProg env scriptDir).2 = ExitOutcome.crashed PyExc.attributeError ∧
    Event.printErr warnMsg ∈ (mainProg env scriptDir).1 := by
  have hfp : find_monospace_font env.fsExists = none :=
    (findFirst_eq_none env.fsExists candidates).mpr hfs
  have hrend : render_icon env.pil 16 none = PyResult.raised PyExc.attributeError := by
    unfold render_icon resolveFont
    rw [hpil (font_size 16)]
    simp [isCaughtOSError]
  have hgen : genLoop env.pil none (iconsetDir scriptDir) ICON_SIZES =
      ([], some PyExc.attributeError) := by
    simp [ICON_SIZES, genLoop, hrend]
  constructor
  · unfold mainProg
    rw [hfp, hgen]
  · unfold mainProg
    rw [hfp, hgen]
    simp [warnEvents, isFalsy]

/-- Witness for C3: a concrete environment with no candidate font and
the Pillow truetype behavior crashes with AttributeError after the
warning. -/
theorem C3_none_font_crash_witness :
    (mainProg noFontEnv testScriptDir).2 = ExitOutcome.crashed PyExc.attributeError ∧
    Event.printErr warnMsg ∈ (mainProg noFontEnv testScriptDir).1 :=
  C3_none_font_crash noFontEnv testScriptDir (by decide) (fun _ => rfl)
